import Mathlib

/-!
Verification of the resilience / capability-adaptation layer of the
sisense_flask repository, via a shallow embedding of the Python source:

* `sisense/optimized_http_client.py` — circuit breaker, rate limiter,
  429 handling, retry classification, backoff, metrics ring buffer;
* `sisense_api_detector.py` — endpoint probing and pattern detection;
* `sisense/env_config.py` — endpoint availability tests, platform
  endpoint mappings, and `get_endpoint_url` routing.

Clock readings (Python `time.time()` floats and `datetime` instants) are
modelled as values of an arbitrary linearly ordered ring `α`: the source
only ever adds whole-second durations to them and compares them, which
`α` models exactly; theorems hold for every `α` (so in particular for ℚ,
the exact model of float timestamps), and concrete witnesses instantiate
`α := ℤ`.  The float constant `0.9` (`rate_limit_buffer`, line 124) and
the float backoff arithmetic are modelled exactly as rationals.
Per-endpoint-class dictionaries (`defaultdict`, lines 128-129) are
modelled by tracking the state of one endpoint class: classes are
independent in the source, each keyed entry evolving only through the
operations embedded below.
-/

/-! ### Configuration constants (config.py defaults and
`OptimizedSisenseHTTPClient.__init__`) -/

/-- `self.circuit_breaker_threshold = 5` (optimized_http_client.py line 122). -/
def circuit_breaker_threshold : Nat := 5

/-- `self.circuit_breaker_timeout = 60` seconds (line 123). -/
def circuit_breaker_timeout : Nat := 60

/-- `Config.REQUEST_RETRIES` default `'3'` (config.py line 33),
read into `self.retry_attempts` (line 115). -/
def retry_attempts : Nat := 3

/-- `Config.REQUEST_RETRY_DELAY` default `'1.0'` (config.py line 34). -/
def base_delay : ℚ := 1

/-- `Config.REQUEST_RETRY_BACKOFF` default `'2.0'` (config.py line 35). -/
def backoff_factor : ℚ := 2

/-- `self.max_jitter = 1.0` (line 121). -/
def max_jitter : ℚ := 1

/-! ### Circuit breaker (optimized_http_client.py lines 48-56, 244-291, 481-486) -/

/-- The three values of `CircuitBreakerState.state`:
`"closed"`, `"open"`, `"half_open"` (line 53). -/
inductive BState
  | closed
  | opened
  | half_open
deriving DecidableEq

/-- Dataclass `CircuitBreakerState` (lines 48-56); `α` is the clock type. -/
structure CircuitBreakerState (α : Type) where
  failure_count : Nat
  last_failure_time : Option α
  state : BState
  next_attempt_time : Option α
  success_count : Nat
  total_requests : Nat
deriving DecidableEq

variable {α : Type} [LinearOrderedRing α]

/-- Dataclass defaults, used by `defaultdict(CircuitBreakerState)` (line 128). -/
def CircuitBreakerState.mkDefault : CircuitBreakerState α :=
  { failure_count := 0
    last_failure_time := none
    state := BState.closed
    next_attempt_time := none
    success_count := 0
    total_requests := 0 }

/-- `_check_circuit_breaker` (lines 244-262): returns the updated breaker
state and whether the request is allowed through. -/
def checkCircuitBreaker (b : CircuitBreakerState α) (now : α) :
    CircuitBreakerState α × Bool :=
  match b.state with
  | BState.opened =>
      match b.next_attempt_time with
      | some t =>
          if t ≤ now then
            ({ b with state := BState.half_open, success_count := 0 }, true)
          else
            (b, false)
      | none => (b, false)
  | _ => (b, true)

/-- `_record_circuit_breaker_result` (lines 264-291). -/
def recordCircuitBreakerResult (b : CircuitBreakerState α) (now : α)
    (success : Bool) : CircuitBreakerState α :=
  let b := { b with total_requests := b.total_requests + 1 }
  if success then
    let b := { b with failure_count := 0, success_count := b.success_count + 1 }
    if b.state = BState.half_open then { b with state := BState.closed } else b
  else
    let b := { b with failure_count := b.failure_count + 1,
                      last_failure_time := some now }
    if (b.state = BState.closed ∨ b.state = BState.half_open) ∧
        circuit_breaker_threshold ≤ b.failure_count then
      { b with state := BState.opened,
               next_attempt_time := some (now + (circuit_breaker_timeout : α)) }
    else b

/-- One attempt of `request_with_optimization` restricted to its
circuit-breaker effects (lines 481-486, 569, 604): the breaker is checked
first; if it rejects, a `SisenseAPIError` with status 503 ("Circuit
breaker is open", the spec's CircuitOpenError) is raised with no network
call; otherwise one network call is made and its outcome recorded.
Returns (new breaker state, number of network calls made, whether the
circuit-open error was raised). -/
def breakerAttempt (b : CircuitBreakerState α) (now : α) (success : Bool) :
    CircuitBreakerState α × Nat × Bool :=
  let r := checkCircuitBreaker b now
  if r.2 then (recordCircuitBreakerResult r.1 now success, 1, false)
  else (r.1, 0, true)

/-- The two ways one request attempt touches the breaker of its endpoint
class: an attempt whose final outcome is recorded (lines 569 and 604), and
an attempt whose retryable failure is retried instead (lines 592-601), or
a 429 retry (lines 549-555) — those run `_check_circuit_breaker` and the
network call but record nothing. -/
inductive BreakerEvent (α : Type)
  | attempt (now : α) (success : Bool)
  | checkOnly (now : α)

/-- Breaker state transition for one event. -/
def breakerEvStep (b : CircuitBreakerState α) : BreakerEvent α →
    CircuitBreakerState α
  | BreakerEvent.attempt now success => (breakerAttempt b now success).1
  | BreakerEvent.checkOnly now => (checkCircuitBreaker b now).1

/-- A sequence of attempts applied to the lazily-created default breaker
state of one endpoint class. -/
def breakerRun (evs : List (BreakerEvent α)) : CircuitBreakerState α :=
  evs.foldl breakerEvStep CircuitBreakerState.mkDefault

/-- Breaker states that actually arise in a run of the client. -/
def BreakerReachable (b : CircuitBreakerState α) : Prop :=
  ∃ evs : List (BreakerEvent α), breakerRun evs = b

/-- The invariant the breaker maintains: away from `closed`, the failure
count has reached the opening threshold. -/
def BreakerInv (b : CircuitBreakerState α) : Prop :=
  b.state = BState.closed ∨ circuit_breaker_threshold ≤ b.failure_count

/-- Recording failures only, as `_record_circuit_breaker_result(key, False)`
at the given times. -/
def recordFailures (b : CircuitBreakerState α) (ts : List α) :
    CircuitBreakerState α :=
  ts.foldl (fun s t => recordCircuitBreakerResult s t false) b

theorem recordFailure_count (b : CircuitBreakerState α) (now : α) :
    (recordCircuitBreakerResult b now false).failure_count = b.failure_count + 1 := by
  simp only [recordCircuitBreakerResult, Bool.false_eq_true, if_false]
  split <;> rfl

theorem recordFailure_state (b : CircuitBreakerState α) (now : α)
    (h : circuit_breaker_threshold ≤ b.failure_count + 1) :
    (recordCircuitBreakerResult b now false).state = BState.opened := by
  simp only [recordCircuitBreakerResult, Bool.false_eq_true, if_false]
  rcases hb : b.state <;> simp [hb, h]

theorem recordFailures_state (ts : List α) : ∀ b : CircuitBreakerState α,
    1 ≤ ts.length →
    circuit_breaker_threshold ≤ b.failure_count + ts.length →
    (recordFailures b ts).state = BState.opened := by
  induction ts with
  | nil => intro b h _; simp at h
  | cons t ts ih =>
      intro b _ hcount
      rcases ts with _ | ⟨t', ts'⟩
      · simpa [recordFailures] using recordFailure_state b t (by simpa using hcount)
      · have h1 : recordFailures b (t :: t' :: ts') =
            recordFailures (recordCircuitBreakerResult b t false) (t' :: ts') := rfl
        rw [h1]
        refine ih _ (by simp) ?_
        rw [recordFailure_count]
        simp only [List.length_cons] at hcount ⊢
        omega

/-- C1: for an endpoint class, after at least `circuit_breaker_threshold`
(default 5) consecutive recorded failures the breaker state is `"open"`
(lines 279-291); and every attempt issued while the breaker is open and
before `next_attempt_time` raises the circuit-open error (`SisenseAPIError`
503, lines 481-486) immediately, leaves the breaker unchanged, and makes
zero network calls (lines 250-260). -/
theorem claim_C1 :
    (∀ (b : CircuitBreakerState α) (ts : List α),
      circuit_breaker_threshold ≤ ts.length →
      (recordFailures b ts).state = BState.opened) ∧
    (∀ (b : CircuitBreakerState α) (now t : α) (success : Bool),
      b.state = BState.opened → b.next_attempt_time = some t → now < t →
      breakerAttempt b now success = (b, 0, true)) := by
  constructor
  · intro b ts h
    exact recordFailures_state ts b
      (by have : (5:Nat) ≤ ts.length := h; omega)
      (by have : (5:Nat) ≤ ts.length := h; omega)
  · intro b now t success hstate hnext hlt
    simp [breakerAttempt, checkCircuitBreaker, hstate, hnext, not_le.mpr hlt]

theorem claim_C1_witness :
    (circuit_breaker_threshold ≤ ([0, 1, 2, 3, 4] : List ℤ).length ∧
      (recordFailures (CircuitBreakerState.mkDefault :
          CircuitBreakerState ℤ) [0, 1, 2, 3, 4]).state = BState.opened) ∧
    (({ CircuitBreakerState.mkDefault with
          state := BState.opened, failure_count := 5,
          next_attempt_time := some 70 } : CircuitBreakerState ℤ).state =
        BState.opened ∧
      breakerAttempt
          ({ CircuitBreakerState.mkDefault with
              state := BState.opened, failure_count := 5,
              next_attempt_time := some 70 } : CircuitBreakerState ℤ) 30 true =
        ({ CircuitBreakerState.mkDefault with
            state := BState.opened, failure_count := 5,
            next_attempt_time := some 70 }, 0, true)) :=
  ⟨⟨by decide,
    claim_C1.1 (CircuitBreakerState.mkDefault : CircuitBreakerState ℤ)
      [0, 1, 2, 3, 4] (by decide)⟩,
   ⟨rfl, claim_C1.2 _ 30 70 true rfl rfl (by decide)⟩⟩

theorem breakerInv_attempt (b : CircuitBreakerState α) (now : α) (success : Bool)
    (h : BreakerInv b) : BreakerInv (breakerAttempt b now success).1 := by
  rcases hb : b.state with _ | _ | _ <;>
    simp only [breakerAttempt, checkCircuitBreaker, hb] <;>
    rcases success with _ | _ <;>
    try rcases hn : b.next_attempt_time with _ | ⟨t⟩
  all_goals
    simp_all only [BreakerInv, recordCircuitBreakerResult, circuit_breaker_threshold]
  all_goals try split
  all_goals simp_all
  all_goals split <;> simp_all <;> omega

theorem breakerInv_check (b : CircuitBreakerState α) (now : α)
    (h : BreakerInv b) : BreakerInv (checkCircuitBreaker b now).1 := by
  rcases hb : b.state with _ | _ | _ <;>
    simp only [checkCircuitBreaker, hb] <;>
    try rcases hn : b.next_attempt_time with _ | ⟨t⟩
  all_goals simp_all only [BreakerInv]
  all_goals try split
  all_goals simp_all

theorem breakerInv_reachable (b : CircuitBreakerState α)
    (h : BreakerReachable b) : BreakerInv b := by
  obtain ⟨evs, rfl⟩ := h
  rw [breakerRun]
  induction evs using List.reverseRecOn with
  | nil => simp [BreakerInv, CircuitBreakerState.mkDefault]
  | append_singleton evs e ih =>
      rw [List.foldl_append, List.foldl_cons, List.foldl_nil]
      rcases e with ⟨now, success⟩ | ⟨now⟩
      · exact breakerInv_attempt _ now success ih
      · exact breakerInv_check _ now ih

/-- C2: for a reachable breaker of an endpoint class that is `"open"` with the
cooldown elapsed (`next_attempt_time ≤ now`), the next attempt transitions the
breaker to `"half_open"` (lines 250-257) and performs exactly one network call;
a successful outcome closes the breaker and resets `failure_count` to 0
(lines 271-278), and a failing outcome reopens it and resets the cooldown
timer to `now + circuit_breaker_timeout` (lines 279-291). -/
theorem claim_C2 (b : CircuitBreakerState α) (t now : α) (success : Bool)
    (hreach : BreakerReachable b) (hstate : b.state = BState.opened)
    (hnext : b.next_attempt_time = some t) (helapsed : t ≤ now) :
    ((checkCircuitBreaker b now).2 = true ∧
      (checkCircuitBreaker b now).1.state = BState.half_open) ∧
    (breakerAttempt b now success).2.1 = 1 ∧
    (success = true →
      (breakerAttempt b now success).1.state = BState.closed ∧
      (breakerAttempt b now success).1.failure_count = 0) ∧
    (success = false →
      (breakerAttempt b now success).1.state = BState.opened ∧
      (breakerAttempt b now success).1.next_attempt_time =
        some (now + (circuit_breaker_timeout : α))) := by
  have hinv := breakerInv_reachable b hreach
  have hfc : circuit_breaker_threshold ≤ b.failure_count := by
    rcases hinv with h | h
    · rw [hstate] at h; exact absurd h (by simp)
    · exact h
  have h5 : circuit_breaker_threshold ≤ b.failure_count + 1 :=
    Nat.le_succ_of_le hfc
  refine ⟨?_, ?_, ?_, ?_⟩
  · simp [checkCircuitBreaker, hstate, hnext, helapsed]
  · simp [breakerAttempt, checkCircuitBreaker, hstate, hnext, helapsed]
  · rintro rfl
    simp [breakerAttempt, checkCircuitBreaker, hstate, hnext, helapsed,
      recordCircuitBreakerResult]
  · rintro rfl
    simp [breakerAttempt, checkCircuitBreaker, hstate, hnext, helapsed,
      recordCircuitBreakerResult, h5]

theorem claim_C2_witness :
    BreakerReachable (breakerRun (List.replicate 5 (BreakerEvent.attempt (0:ℤ) false))) ∧
    (breakerRun (List.replicate 5 (BreakerEvent.attempt (0:ℤ) false))).state = BState.opened ∧
    (breakerRun (List.replicate 5 (BreakerEvent.attempt (0:ℤ) false))).next_attempt_time = some 60 ∧
    ((breakerAttempt (breakerRun (List.replicate 5 (BreakerEvent.attempt (0:ℤ) false))) 60 true).1.state =
        BState.closed ∧
      (breakerAttempt (breakerRun (List.replicate 5 (BreakerEvent.attempt (0:ℤ) false))) 60
          true).1.failure_count = 0) ∧
    ((breakerAttempt (breakerRun (List.replicate 5 (BreakerEvent.attempt (0:ℤ) false))) 60 false).1.state =
        BState.opened ∧
      (breakerAttempt (breakerRun (List.replicate 5 (BreakerEvent.attempt (0:ℤ) false))) 60
          false).1.next_attempt_time = some ((60:ℤ) + (circuit_breaker_timeout : ℤ))) :=
  ⟨⟨List.replicate 5 (BreakerEvent.attempt (0:ℤ) false), rfl⟩, by decide, by decide,
   (claim_C2 _ 60 60 true ⟨List.replicate 5 (BreakerEvent.attempt (0:ℤ) false), rfl⟩
      (by decide) (by decide) le_rfl).2.2.1 rfl,
   (claim_C2 _ 60 60 false ⟨List.replicate 5 (BreakerEvent.attempt (0:ℤ) false), rfl⟩
      (by decide) (by decide) le_rfl).2.2.2 rfl⟩

/-! ### Rate limiter (optimized_http_client.py lines 59-65, 293-353, 488-496) -/

/-- Appending to a `collections.deque(maxlen=cap)`: when the deque is full
the oldest (leftmost) entry is evicted (used at lines 62 and 127). -/
def dequeAppend {β : Type} (cap : Nat) (buf : List β) (x : β) : List β :=
  if cap ≤ buf.length then buf.tail ++ [x] else buf ++ [x]

/-- Dataclass `RateLimitState` (lines 59-65): `request_times` is a
`deque(maxlen=100)` of request timestamps, oldest first. -/
structure RateLimitState (α : Type) where
  request_times : List α
  last_429_time : Option α
  retry_after : ℤ
  requests_per_minute : ℤ
deriving DecidableEq

/-- Dataclass defaults, used by `defaultdict(RateLimitState)` (line 129). -/
def RateLimitState.mkDefault : RateLimitState α :=
  { request_times := [], last_429_time := none, retry_after := 0,
    requests_per_minute := 60 }

/-- The cooldown test of `_check_rate_limit` (lines 300-304):
`limiter.last_429_time and limiter.retry_after` (Python truthiness: both
non-zero / non-None) and `now < last_429_time + retry_after`. -/
def cooldownActive (s : RateLimitState α) (now : α) : Bool :=
  match s.last_429_time with
  | some t =>
      decide (t ≠ 0) && decide (s.retry_after ≠ 0) &&
        decide (now < t + (s.retry_after : α))
  | none => false

/-- `_check_rate_limit` (lines 293-320): deny during an active 429 cooldown;
otherwise prune timestamps older than 60 seconds, deny without recording if
`current_rate >= requests_per_minute * 0.9`, else record the request.  The
float comparison with `rate_limit_buffer = 0.9` (line 314) is written in the
exact integer form `9 * requests_per_minute ≤ 10 * current_rate`; for the
default ceiling 60 the float product `60 * 0.9` is exactly `54.0`, so the
two coincide on all the inputs at issue here. -/
def checkRateLimit (s : RateLimitState α) (now : α) : RateLimitState α × Bool :=
  if cooldownActive s now then (s, false)
  else
    let cutoff := now - 60
    let times := s.request_times.dropWhile (fun t => decide (t < cutoff))
    if 9 * s.requests_per_minute ≤ 10 * (times.length : ℤ) then
      ({ s with request_times := times }, false)
    else
      ({ s with request_times := dequeAppend 100 times now }, true)

/-- Python `int(str)` on the strings at issue: optional surrounding spaces,
optional sign, decimal digits; anything else raises `ValueError`,
modelled as `none`. -/
def pythonInt (s : String) : Option ℤ :=
  let cs := ((s.data.dropWhile (fun c => c == ' ')).reverse.dropWhile
      (fun c => c == ' ')).reverse
  let parseDigits : List Char → Option Nat := fun ds =>
    if ds ≠ [] ∧ ds.all Char.isDigit then
      some (ds.foldl (fun n c => 10 * n + (c.toNat - 48)) 0)
    else none
  match cs with
  | '-' :: rest => (parseDigits rest).map (fun n => -(n : ℤ))
  | '+' :: rest => (parseDigits rest).map (fun n => (n : ℤ))
  | _ => (parseDigits cs).map (fun n => (n : ℤ))

/-- Parsing of the `Retry-After` header (lines 327-332):
`response.headers.get('Retry-After', '60')`, then `int(...)` with a
fallback of 60 on `ValueError`. -/
def parseRetryAfterHeader (headers : List (String × String)) : ℤ :=
  match pythonInt ((headers.lookup "Retry-After").getD "60") with
  | some v => v
  | none => 60

/-- The header names scanned for a server-declared ceiling (lines 337-341). -/
def rate_limit_headers : List String :=
  ["X-RateLimit-Limit", "X-Rate-Limit-Limit", "RateLimit-Limit"]

/-- The ceiling update loop (lines 343-351): the first listed header that is
present and parses as an int replaces `requests_per_minute` (`break`); a
present but unparseable one is skipped (`except ValueError: pass`). -/
def updateRpm : List String → List (String × String) → ℤ → ℤ
  | [], _, rpm => rpm
  | h :: rest, headers, rpm =>
      match headers.lookup h with
      | some v =>
          match pythonInt v with
          | some limit => limit
          | none => updateRpm rest headers rpm
      | none => updateRpm rest headers rpm

/-- `_handle_rate_limit_response` (lines 322-353).  `response.headers` (a
case-insensitive dict in `requests`) is modelled as an association list
keyed by the exact header names the code scans. -/
def handleRateLimitResponse (s : RateLimitState α) (now : α)
    (headers : List (String × String)) : RateLimitState α :=
  { s with
    retry_after := parseRetryAfterHeader headers
    last_429_time := some now
    requests_per_minute := updateRpm rate_limit_headers headers s.requests_per_minute }

/-- The rate-limiting phase of `request_with_optimization` (lines 488-496):
run `_check_rate_limit`; if it denies AND `last_429_time and retry_after`
are truthy, sleep `max(0, last_429_time + retry_after - now)`; in every
case the method then proceeds to issue the request.  Returns the updated
limiter and the seconds slept before the network call. -/
def rateLimitStep (s : RateLimitState α) (now : α) : RateLimitState α × α :=
  let r := checkRateLimit s now
  if r.2 then (r.1, 0)
  else
    match r.1.last_429_time with
    | some t =>
        if t ≠ 0 ∧ r.1.retry_after ≠ 0 then
          (r.1, max 0 (t + (r.1.retry_after : α) - now))
        else (r.1, 0)
    | none => (r.1, 0)

/-- The events that mutate one endpoint class's `RateLimitState`:
an admission check (every request) and a 429 response. -/
inductive RLEvent (α : Type)
  | check (now : α)
  | resp429 (now : α) (headers : List (String × String))

/-- State transition of one endpoint class's limiter. -/
def rlStep (s : RateLimitState α) : RLEvent α → RateLimitState α
  | RLEvent.check now => (checkRateLimit s now).1
  | RLEvent.resp429 now headers => handleRateLimitResponse s now headers

/-- A run of the limiter from its lazily-created default state. -/
def rlRun (evs : List (RLEvent α)) : RateLimitState α :=
  evs.foldl rlStep RateLimitState.mkDefault

theorem dequeAppend_length_le {β : Type} (cap : Nat) (hcap : 1 ≤ cap)
    (buf : List β) (x : β) (h : buf.length ≤ cap) :
    (dequeAppend cap buf x).length ≤ cap := by
  rw [dequeAppend]
  split <;> rename_i hc <;> simp [List.length_append]
  · rcases buf with _ | ⟨b, bs⟩
    · simp at hc; omega
    · simp at h ⊢; omega
  · omega

theorem rlStep_length (s : RateLimitState α) (e : RLEvent α)
    (h : s.request_times.length ≤ 100) :
    (rlStep s e).request_times.length ≤ 100 := by
  rcases e with now | ⟨now, headers⟩
  · have hd : (s.request_times.dropWhile
        (fun t => decide (t < now - 60))).length ≤ 100 :=
      le_trans (List.dropWhile_sublist _).length_le h
    simp only [rlStep, checkRateLimit]
    split
    · exact h
    · split
      · exact hd
      · exact dequeAppend_length_le 100 (by omega) _ _ hd
  · exact h

theorem rlRun_length (evs : List (RLEvent α)) :
    (rlRun evs).request_times.length ≤ 100 := by
  rw [rlRun]
  induction evs using List.reverseRecOn with
  | nil => simp [RateLimitState.mkDefault]
  | append_singleton evs e ih =>
      rw [List.foldl_append, List.foldl_cons, List.foldl_nil]
      exact rlStep_length _ e ih

/-- True when the response carries any of the server rate-limit headers
scanned at lines 337-344. -/
def hasRateLimitHeader (headers : List (String × String)) : Bool :=
  rate_limit_headers.any (fun h => (headers.lookup h).isSome)

theorem no_header_lookup (headers : List (String × String))
    (h : hasRateLimitHeader headers = false) :
    ∀ n ∈ rate_limit_headers, headers.lookup n = none := by
  intro n hn
  rw [hasRateLimitHeader, List.any_eq_false] at h
  have hs := h n hn
  rcases hl : headers.lookup n with _ | v
  · rfl
  · rw [hl] at hs; simp at hs

theorem updateRpm_no_header (names : List String)
    (headers : List (String × String)) (rpm : ℤ)
    (h : ∀ n ∈ names, headers.lookup n = none) :
    updateRpm names headers rpm = rpm := by
  induction names with
  | nil => rfl
  | cons n rest ih =>
      have hn := h n (by simp)
      simp only [updateRpm, hn]
      exact ih (fun m hm => h m (by simp [hm]))

/-- Events that leave the configured ceiling unchanged: admission checks
always do; a 429 response does when it carries no rate-limit header. -/
def KeepsRpm : RLEvent α → Prop
  | RLEvent.check _ => True
  | RLEvent.resp429 _ headers => hasRateLimitHeader headers = false

theorem dequeAppend_length_le_succ {β : Type} (cap : Nat) (buf : List β)
    (x : β) : (dequeAppend cap buf x).length ≤ buf.length + 1 := by
  rw [dequeAppend]
  split
  · simp only [List.length_append, List.length_tail, List.length_singleton]
    omega
  · simp

theorem checkRateLimit_preserves (s : RateLimitState α) (now : α) :
    (checkRateLimit s now).1.last_429_time = s.last_429_time ∧
    (checkRateLimit s now).1.retry_after = s.retry_after := by
  rw [checkRateLimit]
  split
  · exact ⟨rfl, rfl⟩
  · dsimp only
    split <;> exact ⟨rfl, rfl⟩

theorem windowBound_step (s : RateLimitState α) (e : RLEvent α)
    (hk : KeepsRpm e)
    (h : 10 * (s.request_times.length : ℤ) ≤ 9 * s.requests_per_minute + 9) :
    (rlStep s e).requests_per_minute = s.requests_per_minute ∧
    10 * ((rlStep s e).request_times.length : ℤ) ≤
      9 * s.requests_per_minute + 9 := by
  rcases e with now | ⟨now, headers⟩
  · have hd : (s.request_times.dropWhile
        (fun t => decide (t < now - 60))).length ≤ s.request_times.length :=
      (List.dropWhile_sublist _).length_le
    simp only [rlStep, checkRateLimit]
    split
    · exact ⟨rfl, h⟩
    · split
      · refine ⟨rfl, ?_⟩
        dsimp only
        omega
      · rename_i hlt
        refine ⟨rfl, ?_⟩
        have ha := dequeAppend_length_le_succ 100
          (s.request_times.dropWhile (fun t => decide (t < now - 60))) now
        push_neg at hlt
        dsimp only
        omega
  · refine ⟨?_, h⟩
    simp only [rlStep, handleRateLimitResponse]
    exact updateRpm_no_header _ _ _ (no_header_lookup headers hk)

theorem windowBound_run (evs : List (RLEvent α)) (hk : ∀ e ∈ evs, KeepsRpm e) :
    (rlRun evs).requests_per_minute = 60 ∧
    10 * ((rlRun evs).request_times.length : ℤ) ≤ 9 * 60 + 9 := by
  rw [rlRun]
  induction evs using List.reverseRecOn with
  | nil => exact ⟨rfl, by simp [RateLimitState.mkDefault]⟩
  | append_singleton evs e ih =>
      have ih' := ih (fun x hx => hk x (by simp [hx]))
      rw [List.foldl_append, List.foldl_cons, List.foldl_nil]
      have hs := windowBound_step (evs.foldl rlStep RateLimitState.mkDefault) e
        (hk e (by simp)) (ih'.1 ▸ ih'.2)
      exact ⟨hs.1.trans ih'.1, ih'.1 ▸ hs.2⟩

theorem rateLimitStep_cooldown (s : RateLimitState α) (now t : α)
    (hlast : s.last_429_time = some t) (hcd : cooldownActive s now = true) :
    (checkRateLimit s now).2 = false ∧
    rateLimitStep s now = (s, t + (s.retry_after : α) - now) ∧
    0 < t + (s.retry_after : α) - now := by
  have hcheck : checkRateLimit s now = (s, false) := by
    rw [checkRateLimit, if_pos hcd]
  simp only [cooldownActive, hlast, Bool.and_eq_true, decide_eq_true_eq] at hcd
  obtain ⟨⟨ht, hra⟩, hlt⟩ := hcd
  have hwait : (0:α) < t + (s.retry_after : α) - now := sub_pos.mpr hlt
  refine ⟨by rw [hcheck], ?_, hwait⟩
  rw [rateLimitStep, hcheck]
  dsimp only
  simp only [Bool.false_eq_true, if_false]
  rw [hlast]
  dsimp only
  rw [if_pos (And.intro ht hra)]
  rw [max_eq_right hwait.le]

theorem rateLimitStep_no_cooldown (s : RateLimitState α) (now : α)
    (hcd : cooldownActive s now = false) : (rateLimitStep s now).2 = 0 := by
  have hpres := checkRateLimit_preserves s now
  rw [rateLimitStep]
  by_cases hall : (checkRateLimit s now).2 = true
  · rw [if_pos hall]
  · rw [if_neg hall]
    rcases hl : (checkRateLimit s now).1.last_429_time with _ | t
    · rfl
    · split
      · rename_i t2 heq
        injection heq with ht2
        subst ht2
        split
        · rename_i hcond
          obtain ⟨ht, hra⟩ := hcond
          rw [hpres.2] at hra
          have hs429 : s.last_429_time = some t := by rw [← hpres.1, hl]
          have hnlt : ¬ now < t + (s.retry_after : α) := by
            intro hlt
            simp [cooldownActive, hs429, ht, hra, hlt] at hcd
          dsimp only
          rw [hpres.2]
          exact max_eq_left (sub_nonpos.mpr (not_lt.mp hnlt))
        · rfl
      · rfl

/-- C3 (amended): with the default ceiling of 60 requests/min and the 0.9
safety margin, as long as no 429 response updates the ceiling, the recorded
sliding window of an endpoint class never holds more than 54 = 60 × 0.9
timestamps (lines 306-320) — requests denied admission are not recorded;
when `_check_rate_limit` denies and a server-declared 429 cooldown is
active, the executor sleeps exactly the remaining cooldown before issuing
the request (lines 488-496); when it denies with no active cooldown the
executor performs no wait at all and proceeds directly to the network call
(the denial triggers neither blocking until the oldest timestamp leaves the
window nor rejection). -/
theorem claim_C3 :
    (∀ evs : List (RLEvent α), (∀ e ∈ evs, KeepsRpm e) →
      (rlRun evs).requests_per_minute = 60 ∧
      (rlRun evs).request_times.length ≤ 54) ∧
    (∀ (s : RateLimitState α) (now t : α), s.last_429_time = some t →
      cooldownActive s now = true →
      (checkRateLimit s now).2 = false ∧
      rateLimitStep s now = (s, t + (s.retry_after : α) - now) ∧
      0 < t + (s.retry_after : α) - now) ∧
    (∀ (s : RateLimitState α) (now : α), cooldownActive s now = false →
      (rateLimitStep s now).2 = 0) := by
  refine ⟨?_, rateLimitStep_cooldown, rateLimitStep_no_cooldown⟩
  intro evs hk
  have h := windowBound_run evs hk
  refine ⟨h.1, ?_⟩
  have := h.2
  omega

theorem claim_C3_witness :
    ((∀ e ∈ List.replicate 3 (RLEvent.check (0:ℤ)), KeepsRpm e) ∧
      (rlRun (List.replicate 3 (RLEvent.check (0:ℤ)))).requests_per_minute = 60 ∧
      (rlRun (List.replicate 3 (RLEvent.check (0:ℤ)))).request_times.length ≤ 54) ∧
    ((rlRun [RLEvent.resp429 (5:ℤ) [("Retry-After", "60")]]).last_429_time =
        some 5 ∧
      cooldownActive (rlRun [RLEvent.resp429 (5:ℤ) [("Retry-After", "60")]]) 10 =
        true ∧
      rateLimitStep (rlRun [RLEvent.resp429 (5:ℤ) [("Retry-After", "60")]]) 10 =
        (rlRun [RLEvent.resp429 (5:ℤ) [("Retry-After", "60")]],
          5 + ((rlRun [RLEvent.resp429 (5:ℤ)
              [("Retry-After", "60")]]).retry_after : ℤ) - 10)) ∧
    (cooldownActive (RateLimitState.mkDefault : RateLimitState ℤ) 0 = false ∧
      (rateLimitStep (RateLimitState.mkDefault : RateLimitState ℤ) 0).2 = 0) := by
  have hk : ∀ e ∈ List.replicate 3 (RLEvent.check (0:ℤ)), KeepsRpm e := by
    intro e he
    rw [List.eq_of_mem_replicate he]
    trivial
  have h1 := claim_C3.1 (List.replicate 3 (RLEvent.check (0:ℤ))) hk
  have h2 := claim_C3.2.1 (rlRun [RLEvent.resp429 (5:ℤ) [("Retry-After", "60")]])
    10 5 (by decide) (by decide)
  have h3 := claim_C3.2.2 (RateLimitState.mkDefault : RateLimitState ℤ) 0 (by decide)
  exact ⟨⟨hk, h1.1, h1.2⟩, ⟨by decide, by decide, h2.2.1⟩, by decide, h3⟩

set_option maxRecDepth 40000 in
/-- C3 counterexample: after 54 admitted requests at time 0 the sliding
window of the default-configured limiter is full (54 = 60 × 0.9);
`_check_rate_limit` then denies, no 429 cooldown is active, and the
executor's rate-limit phase performs a wait of 0 seconds and proceeds
straight to the network call — it does not block until the oldest
timestamp (time 0) leaves the 60-second window, and it does not reject. -/
theorem claim_C3_counterexample :
    (rlRun (List.replicate 54 (RLEvent.check (0:ℤ)))).request_times.length = 54 ∧
    (checkRateLimit (rlRun (List.replicate 54 (RLEvent.check (0:ℤ)))) 0).2 = false ∧
    cooldownActive (rlRun (List.replicate 54 (RLEvent.check (0:ℤ)))) 0 = false ∧
    rateLimitStep (rlRun (List.replicate 54 (RLEvent.check (0:ℤ)))) 0 =
      (rlRun (List.replicate 54 (RLEvent.check (0:ℤ))), 0) := by
  decide

/-- C10 (amended): the stored sliding window of an endpoint class never
holds more than 100 timestamps — the fixed `deque(maxlen=100)` capacity
(line 62) — whatever the configured `requests_per_minute`; consequently,
whenever `requests_per_minute × 0.9` exceeds 100 (in exact terms,
`1000 < 9 × requests_per_minute`) and no server-declared 429 cooldown is
active, `_check_rate_limit` admits the request and the executor performs
no wait. -/
theorem claim_C10 :
    (∀ evs : List (RLEvent α), (rlRun evs).request_times.length ≤ 100) ∧
    (∀ (s : RateLimitState α) (now : α),
      s.request_times.length ≤ 100 →
      1000 < 9 * s.requests_per_minute →
      cooldownActive s now = false →
      (checkRateLimit s now).2 = true ∧ (rateLimitStep s now).2 = 0) := by
  refine ⟨rlRun_length, ?_⟩
  intro s now hlen hrpm hcd
  have hd : (s.request_times.dropWhile
      (fun t => decide (t < now - 60))).length ≤ 100 :=
    le_trans (List.dropWhile_sublist _).length_le hlen
  have hadm : (checkRateLimit s now).2 = true := by
    rw [checkRateLimit, if_neg (by simp [hcd])]
    dsimp only
    rw [if_neg (by omega)]
  refine ⟨hadm, ?_⟩
  rw [rateLimitStep, if_pos hadm]

theorem claim_C10_witness :
    (rlRun ([] : List (RLEvent ℤ))).request_times.length ≤ 100 ∧
    (({ RateLimitState.mkDefault with requests_per_minute := 112 } :
          RateLimitState ℤ).request_times.length ≤ 100 ∧
      1000 < 9 * ({ RateLimitState.mkDefault with requests_per_minute := 112 } :
          RateLimitState ℤ).requests_per_minute ∧
      cooldownActive ({ RateLimitState.mkDefault with requests_per_minute := 112 } :
          RateLimitState ℤ) 7 = false ∧
      (checkRateLimit ({ RateLimitState.mkDefault with requests_per_minute := 112 } :
          RateLimitState ℤ) 7).2 = true ∧
      (rateLimitStep ({ RateLimitState.mkDefault with requests_per_minute := 112 } :
          RateLimitState ℤ) 7).2 = 0) := by
  have h2 := claim_C10.2 ({ RateLimitState.mkDefault with requests_per_minute := 112 } :
      RateLimitState ℤ) 7 (by decide) (by decide) (by decide)
  exact ⟨claim_C10.1 [], by decide, by decide, by decide, h2.1, h2.2⟩

/-- C10 counterexample: a 429 response carrying `X-RateLimit-Limit: 112`
raises the ceiling so that `requests_per_minute × 0.9 > 100`, yet while its
`Retry-After: 60` cooldown is active the admission check still denies the
next request — it is not the case that such an endpoint class is always
admitted without a wait. -/
theorem claim_C10_counterexample :
    1000 < 9 * (rlRun [RLEvent.resp429 (5:ℤ)
        [("X-RateLimit-Limit", "112"), ("Retry-After", "60")]]).requests_per_minute ∧
    (checkRateLimit (rlRun [RLEvent.resp429 (5:ℤ)
        [("X-RateLimit-Limit", "112"), ("Retry-After", "60")]]) 10).2 = false := by
  decide

/-! ### Backoff and the HTTP-429 path (optimized_http_client.py
lines 227-242, 539-559) -/

/-- The deterministic part of `_calculate_backoff_delay` (lines 232-239):
`min(base_delay * backoff_factor ** (attempt - 1), 60.0)`. -/
def backoffDelayCore (attempt : Nat) : ℚ :=
  min (base_delay * backoff_factor ^ (attempt - 1)) 60

/-- `_calculate_backoff_delay` (lines 232-242): the capped exponential delay
plus the jitter drawn by `_add_jitter` (lines 227-230); the random draw is
the parameter `j`, ranged over by `ValidJitter`. -/
def calculateBackoffDelay (attempt : Nat) (j : ℚ) : ℚ :=
  backoffDelayCore attempt + j

/-- The range of `random.uniform(0, min(delay * 0.1, self.max_jitter))`
(line 229). -/
def ValidJitter (attempt : Nat) (j : ℚ) : Prop :=
  0 ≤ j ∧ j ≤ min (backoffDelayCore attempt * (1/10)) max_jitter

/-- The HTTP-429 branch of `request_with_optimization` (lines 539-559):
`_handle_rate_limit_response` updates the limiter; if attempts remain the
client sleeps `_calculate_backoff_delay(attempt)` — not the parsed
`Retry-After` — and recurses as a retry with `attempt + 1`; otherwise it
records a breaker failure and raises `SisenseAPIError("Rate limited",
status 429)`, the spec's RateLimitedError.  Returns (updated limiter,
seconds slept before the recursive retry, whether a retry is made). -/
def handle429 (s : RateLimitState ℚ) (now : ℚ) (headers : List (String × String))
    (attempt : Nat) (j : ℚ) : RateLimitState ℚ × ℚ × Bool :=
  let s1 := handleRateLimitResponse s now headers
  if attempt < retry_attempts then (s1, calculateBackoffDelay attempt j, true)
  else (s1, 0, false)

theorem rateLimitStep_wait_nonneg (s : RateLimitState α) (now : α) :
    0 ≤ (rateLimitStep s now).2 := by
  rw [rateLimitStep]
  split
  · exact le_refl 0
  · split
    · split
      · exact le_max_left 0 _
      · exact le_refl 0
    · exact le_refl 0

/-- C4 (amended): on an HTTP 429 with attempts remaining, the executor
parses `Retry-After` (defaulting to 60 when the header is missing or does
not parse as an int, lines 327-332), stores it in the limiter, and — when
the 429 carries no rate-limit header — leaves `requests_per_minute`
unchanged (lines 343-351); it then retries, but the sleep taken before the
recursive retry is the exponential-backoff delay of the current attempt,
not the Retry-After duration (line 550); the retried call's rate-limit
phase (lines 488-496) then waits out whatever remains of the Retry-After
cooldown, so the retried network call is issued no earlier than
Retry-After seconds after the 429. -/
theorem claim_C4 (s : RateLimitState ℚ) (now : ℚ)
    (headers : List (String × String)) (attempt : Nat) (j : ℚ)
    (hatt : attempt < retry_attempts) (_hj : ValidJitter attempt j)
    (hnow : 0 < now) (hra : 0 < parseRetryAfterHeader headers) :
    (handleRateLimitResponse s now headers).retry_after =
      parseRetryAfterHeader headers ∧
    (headers.lookup "Retry-After" = none →
      (handleRateLimitResponse s now headers).retry_after = 60) ∧
    (∀ v, headers.lookup "Retry-After" = some v → pythonInt v = none →
      (handleRateLimitResponse s now headers).retry_after = 60) ∧
    (hasRateLimitHeader headers = false →
      (handleRateLimitResponse s now headers).requests_per_minute =
        s.requests_per_minute) ∧
    (handle429 s now headers attempt j).2.2 = true ∧
    (handle429 s now headers attempt j).2.1 = calculateBackoffDelay attempt j ∧
    now + (parseRetryAfterHeader headers : ℚ) ≤
      now + (handle429 s now headers attempt j).2.1 +
        (rateLimitStep (handle429 s now headers attempt j).1
          (now + (handle429 s now headers attempt j).2.1)).2 := by
  have h429 : handle429 s now headers attempt j =
      (handleRateLimitResponse s now headers,
        calculateBackoffDelay attempt j, true) := by
    rw [handle429, if_pos hatt]
  have hl1 : (handleRateLimitResponse s now headers).last_429_time = some now := rfl
  have hr1 : (handleRateLimitResponse s now headers).retry_after =
      parseRetryAfterHeader headers := rfl
  refine ⟨hr1, ?_, ?_, ?_, ?_, ?_, ?_⟩
  · intro h
    rw [hr1, parseRetryAfterHeader, h]
    decide
  · intro v hv hpv
    rw [hr1, parseRetryAfterHeader, hv]
    simp [hpv]
  · intro h
    exact updateRpm_no_header _ _ _ (no_header_lookup headers h)
  · rw [h429]
  · rw [h429]
  · rw [h429]
    dsimp only
    by_cases hlt : now + calculateBackoffDelay attempt j <
        now + (parseRetryAfterHeader headers : ℚ)
    · have hcd : cooldownActive (handleRateLimitResponse s now headers)
          (now + calculateBackoffDelay attempt j) = true := by
        rw [cooldownActive, hl1]
        simp only [Bool.and_eq_true, decide_eq_true_eq]
        exact ⟨⟨hnow.ne', by rw [hr1]; exact_mod_cast hra.ne'⟩,
          by rw [hr1]; exact hlt⟩
      have hstep := rateLimitStep_cooldown (handleRateLimitResponse s now headers)
        (now + calculateBackoffDelay attempt j) now hl1 hcd
      rw [hstep.2.1]
      rw [hr1]
      ring_nf
      exact le_refl _
    · have hle := not_lt.mp hlt
      have hw := rateLimitStep_wait_nonneg (handleRateLimitResponse s now headers)
        (now + calculateBackoffDelay attempt j)
      linarith

theorem claim_C4_witness :
    (1 < retry_attempts ∧ ValidJitter 1 0 ∧ (0:ℚ) < 100 ∧
      0 < parseRetryAfterHeader [("Retry-After", "3")]) ∧
    ((handleRateLimitResponse (RateLimitState.mkDefault : RateLimitState ℚ) 100
        [("Retry-After", "3")]).retry_after =
      parseRetryAfterHeader [("Retry-After", "3")] ∧
    (([("Retry-After", "3")] : List (String × String)).lookup "Retry-After" = none →
      (handleRateLimitResponse (RateLimitState.mkDefault : RateLimitState ℚ) 100
        [("Retry-After", "3")]).retry_after = 60) ∧
    (∀ v, ([("Retry-After", "3")] : List (String × String)).lookup "Retry-After" =
        some v → pythonInt v = none →
      (handleRateLimitResponse (RateLimitState.mkDefault : RateLimitState ℚ) 100
        [("Retry-After", "3")]).retry_after = 60) ∧
    (hasRateLimitHeader [("Retry-After", "3")] = false →
      (handleRateLimitResponse (RateLimitState.mkDefault : RateLimitState ℚ) 100
        [("Retry-After", "3")]).requests_per_minute =
        (RateLimitState.mkDefault : RateLimitState ℚ).requests_per_minute) ∧
    (handle429 (RateLimitState.mkDefault : RateLimitState ℚ) 100
        [("Retry-After", "3")] 1 0).2.2 = true ∧
    (handle429 (RateLimitState.mkDefault : RateLimitState ℚ) 100
        [("Retry-After", "3")] 1 0).2.1 = calculateBackoffDelay 1 0 ∧
    (100:ℚ) + (parseRetryAfterHeader [("Retry-After", "3")] : ℚ) ≤
      100 + (handle429 (RateLimitState.mkDefault : RateLimitState ℚ) 100
          [("Retry-After", "3")] 1 0).2.1 +
        (rateLimitStep (handle429 (RateLimitState.mkDefault : RateLimitState ℚ) 100
            [("Retry-After", "3")] 1 0).1
          (100 + (handle429 (RateLimitState.mkDefault : RateLimitState ℚ) 100
              [("Retry-After", "3")] 1 0).2.1)).2) :=
  ⟨⟨by decide,
    ⟨le_refl 0, by norm_num [backoffDelayCore, base_delay, backoff_factor, max_jitter]⟩,
    by norm_num, by decide⟩,
   claim_C4 (RateLimitState.mkDefault : RateLimitState ℚ) 100
     [("Retry-After", "3")] 1 0 (by decide)
     ⟨le_refl 0, by norm_num [backoffDelayCore, base_delay, backoff_factor, max_jitter]⟩
     (by norm_num) (by decide)⟩

/-- C4 counterexample: on a 429 with `Retry-After: 3` at attempt 1 (budget
3), the executor's immediate sleep before the retry is the backoff delay —
1 second for attempt 1 with the default `base_delay = 1.0`,
`backoff_factor = 2.0` and a jitter draw of 0 — not the 3-second
Retry-After duration the claim asserts (line 550 sleeps
`_calculate_backoff_delay(attempt)`). -/
theorem claim_C4_counterexample :
    parseRetryAfterHeader [("Retry-After", "3")] = 3 ∧
    (handle429 (RateLimitState.mkDefault : RateLimitState ℚ) 100
        [("Retry-After", "3")] 1 0).2.1 = 1 ∧
    (1:ℚ) ≠ 3 := by
  refine ⟨by decide, ?_, by norm_num⟩
  rw [handle429, if_pos (by decide)]
  norm_num [calculateBackoffDelay, backoffDelayCore, base_delay, backoff_factor]

/-! ### Retry classification (optimized_http_client.py lines 573-629,
sisense/utils.py lines 22-36) -/

/-- The two error families caught at line 573: `SisenseAPIError` (raised by
`_handle_response` with the HTTP status, utils.py lines 22-36) and
`requests.RequestException` (timeouts and connection errors).  Both carry
`str(e)` = the message they were constructed with. -/
inductive ClientError
  | sisenseAPIError (message : String) (status_code : ℤ)
  | requestException (message : String)
deriving DecidableEq

/-- Python `str(e)` for both error kinds. -/
def errorStr : ClientError → String
  | ClientError.sisenseAPIError m _ => m
  | ClientError.requestException m => m

/-- Whether `needle` starts `hay`. -/
def matchesAt : List Char → List Char → Bool
  | [], _ => true
  | _ :: _, [] => false
  | a :: as, b :: bs => a == b && matchesAt as bs

/-- Whether `needle` occurs contiguously in `hay`: Python `needle in hay`. -/
def containsSeq (needle : List Char) : List Char → Bool
  | [] => matchesAt needle []
  | c :: rest => matchesAt needle (c :: rest) || containsSeq needle rest

/-- Python `needle in hay` on strings. -/
def strContains (hay needle : String) : Bool :=
  containsSeq needle.data hay.data

/-- Python `str.lower()`; `Char.toLower` lowers exactly the ASCII range,
which covers every message and marker at issue. -/
def pyLower (s : String) : String := String.mk (s.data.map Char.toLower)

/-- `_is_abort_error` (lines 613-620): `str(error).lower()` contains
`'timeout'`, `'abort'`, or `'connection aborted'`. -/
def isAbortError (e : ClientError) : Bool :=
  let es := pyLower (errorStr e)
  strContains es "timeout" || strContains es "abort" ||
    strContains es "connection aborted"

/-- `_is_retryable_error` (lines 622-629): a `SisenseAPIError` is retryable
iff its status is ≥ 500 or equals 429; a `RequestException` always is. -/
def isRetryableError : ClientError → Bool
  | ClientError.sisenseAPIError _ code => decide (500 ≤ code) || decide (code = 429)
  | ClientError.requestException _ => true

/-- `should_retry` (lines 585-590): attempts remain, the error is not an
abort error, and it is retryable. -/
def shouldRetry (attempt : Nat) (e : ClientError) : Bool :=
  decide (attempt < retry_attempts) && !(isAbortError e) && isRetryableError e

/-- C5 (amended): while attempts remain, a 5xx `SisenseAPIError` and a
connection-level `RequestException` are retried with backoff provided the
lowercased error message contains none of the abort markers `'timeout'`,
`'abort'`, `'connection aborted'`; any error whose message contains one of
those markers — which includes every ordinary timeout, since its message
contains `'timeout'` — is not retried and is surfaced immediately
(lines 585-590, 613-620). -/
theorem claim_C5 (msg : String) (attempt : Nat)
    (hatt : attempt < retry_attempts) :
    (∀ code : ℤ, 500 ≤ code →
      isAbortError (ClientError.sisenseAPIError msg code) = false →
      shouldRetry attempt (ClientError.sisenseAPIError msg code) = true) ∧
    (isAbortError (ClientError.requestException msg) = false →
      shouldRetry attempt (ClientError.requestException msg) = true) ∧
    (∀ e : ClientError, isAbortError e = true →
      shouldRetry attempt e = false) := by
  refine ⟨?_, ?_, ?_⟩
  · intro code hcode habort
    simp [shouldRetry, isRetryableError, hatt, habort, hcode]
  · intro habort
    simp [shouldRetry, isRetryableError, hatt, habort]
  · intro e habort
    simp [shouldRetry, habort]

theorem claim_C5_witness :
    (1 < retry_attempts ∧
      isAbortError (ClientError.sisenseAPIError "HTTP 502 error" 502) = false ∧
      isAbortError (ClientError.requestException "HTTP 502 error") = false ∧
      isAbortError (ClientError.requestException "Connection aborted.") = true) ∧
    shouldRetry 1 (ClientError.sisenseAPIError "HTTP 502 error" 502) = true ∧
    shouldRetry 1 (ClientError.requestException "HTTP 502 error") = true ∧
    shouldRetry 1 (ClientError.requestException "Connection aborted.") = false :=
  ⟨⟨by decide, by decide, by decide, by decide⟩,
   (claim_C5 "HTTP 502 error" 1 (by decide)).1 502 (by decide) (by decide),
   (claim_C5 "HTTP 502 error" 1 (by decide)).2.1 (by decide),
   (claim_C5 "HTTP 502 error" 1 (by decide)).2.2
     (ClientError.requestException "Connection aborted.") (by decide)⟩

/-- C5 counterexample: a plain read timeout — retryable per the claim, and
not an explicit hard-abort marker — is nevertheless not retried, even with
the full retry budget remaining, because `_is_abort_error` treats every
message containing `'timeout'` as an abort (line 617). -/
theorem claim_C5_counterexample :
    isRetryableError
      (ClientError.requestException "Read timed out. (read timeout=30)") = true ∧
    1 < retry_attempts ∧
    shouldRetry 1
      (ClientError.requestException "Read timed out. (read timeout=30)") = false := by
  decide

/-! ### Capability probes (sisense_api_detector.py lines 35-176,
env_config.py lines 313-424) -/

/-- The observable outcome of one probe request: an HTTP status, or an
exception (timeout, connection error, or anything else raised). -/
inductive ProbeOutcome
  | status (code : ℤ)
  | exception
deriving DecidableEq

/-- Classification in `SisenseAPIVersionDetector._test_endpoint`
(sisense_api_detector.py lines 141-176): any exception from the probe is
caught and yields False — detection itself never raises — and an HTTP
response is available iff its status is in `[200, 401, 403, 422]`
(line 166). -/
def detectorTestEndpoint : ProbeOutcome → Bool
  | ProbeOutcome.status code =>
      code == 200 || code == 401 || code == 403 || code == 422
  | ProbeOutcome.exception => false

/-- Classification in `SisenseEnvironmentConfig._test_endpoint_availability`
(env_config.py lines 395-424): when endpoint testing is disabled the probe
is skipped and the endpoint reported available (lines 397-399); otherwise
any exception yields False and a response is available iff its status is in
`[200, 401, 403]` (line 418). -/
def testEndpointAvailability (testingEnabled : Bool) (o : ProbeOutcome) : Bool :=
  if !testingEnabled then true
  else
    match o with
    | ProbeOutcome.status code => code == 200 || code == 401 || code == 403
    | ProbeOutcome.exception => false

/-- C6 (amended): both probe classifiers are total — every probe exception
is caught and classified absent, so capability detection never raises — and
with testing enabled, `_test_endpoint_availability` classifies a candidate
present iff the status is 200, 401 or 403; the detector's `_test_endpoint`,
however, classifies present iff the status is 200, 401, 403 **or 422**;
404, 5xx and every other status, and any exception, classify absent in
both. -/
theorem claim_C6 :
    (∀ code : ℤ, detectorTestEndpoint (ProbeOutcome.status code) = true ↔
      (code = 200 ∨ code = 401 ∨ code = 403 ∨ code = 422)) ∧
    detectorTestEndpoint ProbeOutcome.exception = false ∧
    (∀ code : ℤ, testEndpointAvailability true (ProbeOutcome.status code) = true ↔
      (code = 200 ∨ code = 401 ∨ code = 403)) ∧
    testEndpointAvailability true ProbeOutcome.exception = false := by
  refine ⟨?_, rfl, ?_, rfl⟩
  · intro code
    simp only [detectorTestEndpoint, Bool.or_eq_true, beq_iff_eq]
    tauto
  · intro code
    simp only [testEndpointAvailability, Bool.not_true, Bool.false_eq_true,
      if_false, Bool.or_eq_true, beq_iff_eq]
    tauto

/-- C6 counterexample: an HTTP 422 probe response is classified present by
the detector's `_test_endpoint` (line 166) although 422 is none of 200,
401, 403 — refuting "present if and only if the status is 200, 401,
or 403". -/
theorem claim_C6_counterexample :
    detectorTestEndpoint (ProbeOutcome.status 422) = true ∧
    ¬((422:ℤ) = 200 ∨ (422:ℤ) = 401 ∨ (422:ℤ) = 403) := by
  decide

/-! ### Endpoint routing (sisense_api_detector.py lines 72-84,
env_config.py lines 336-359, 374-393, 444-467) -/

/-- One candidate loop of `detect_capabilities` (sisense_api_detector.py
lines 66-94): probe the candidates in order, stopping at the first one
classified available; its pattern name is recorded. -/
def firstPresent (test : String → Bool) : List (String × String) → Option String
  | [] => none
  | (endpoint, pat) :: rest =>
      if test endpoint then some pat else firstPresent test rest

/-- The ordered data-model candidates `datamodel_tests` (lines 73-77). -/
def datamodel_tests : List (String × String) :=
  [("/api/v2/datamodels", "v2_datamodels"),
   ("/api/v1/elasticubes/getElasticubes", "v1_elasticubes"),
   ("/elasticubes/getElasticubes", "v0_elasticubes")]

/-- The detected `data_model_pattern` (lines 79-83). -/
def data_model_pattern (test : String → Bool) : Option String :=
  firstPresent test datamodel_tests

/-- `detect_endpoint_capabilities` V2 availability (env_config.py
lines 340-341): any of the two v2 endpoints probing available. -/
def v2_available (test : String → Bool) : Bool :=
  test "/api/v2/datamodels" || test "/api/v2/connections"

/-- Python dict assignment `d[k] = v` on an association list. -/
def dictSet : List (String × String) → String → String → List (String × String)
  | [], k, v => [(k, v)]
  | (k0, v0) :: rest, k, v =>
      if k0 == k then (k, v) :: rest else (k0, v0) :: dictSet rest k v

/-- The base mappings dict of `_get_platform_endpoint_mappings`
(env_config.py lines 377-384). -/
def baseMappings : List (String × String) :=
  [("connections", "/api/v2/connections"),
   ("datamodels", "/api/v2/datamodels"),
   ("dashboards", "/api/v1/dashboards"),
   ("widgets", "/api/v1/widgets"),
   ("authentication", "/api/v1/authentication/login"),
   ("user_info", "/api/v1/authentication/me")]

/-- `_get_platform_endpoint_mappings` (env_config.py lines 374-393): the
base (v2) mappings, with `connections` and `datamodels` rewritten to the
legacy v1 endpoints when `capabilities.v2_available` is false. -/
def getPlatformEndpointMappings (v2avail : Bool) : List (String × String) :=
  if v2avail then baseMappings
  else dictSet (dictSet baseMappings "connections" "/api/v1/connection")
    "datamodels" "/api/v1/elasticubes/getElasticubes"

/-- C7 (amended): the detector probes the data-model candidates in priority
order and the first one classified present determines the detected pattern,
so with `/api/v2/datamodels` absent and
`/api/v1/elasticubes/getElasticubes` present the detected pattern is
`v1_elasticubes`; the environment config's snapshot mapping, by contrast,
keys on overall v2 availability: it maps `datamodels` to
`/api/v1/elasticubes/getElasticubes` when neither v2 endpoint probed
present, and keeps `/api/v2/datamodels` whenever any v2 endpoint (even just
`/api/v2/connections`) probed present. -/
theorem claim_C7 (test : String → Bool)
    (h404 : test "/api/v2/datamodels" = false)
    (h200 : test "/api/v1/elasticubes/getElasticubes" = true) :
    data_model_pattern test = some "v1_elasticubes" ∧
    (v2_available test = false →
      (getPlatformEndpointMappings (v2_available test)).lookup "datamodels" =
        some "/api/v1/elasticubes/getElasticubes") ∧
    (v2_available test = true →
      (getPlatformEndpointMappings (v2_available test)).lookup "datamodels" =
        some "/api/v2/datamodels") := by
  refine ⟨?_, ?_, ?_⟩
  · simp [data_model_pattern, datamodel_tests, firstPresent, h404, h200]
  · intro h
    rw [h]
    decide
  · intro h
    rw [h]
    decide

theorem claim_C7_witness :
    ((fun ep => ep == "/api/v1/elasticubes/getElasticubes") "/api/v2/datamodels"
        = false ∧
      (fun ep => ep == "/api/v1/elasticubes/getElasticubes")
        "/api/v1/elasticubes/getElasticubes" = true ∧
      v2_available (fun ep => ep == "/api/v1/elasticubes/getElasticubes") = false) ∧
    data_model_pattern (fun ep => ep == "/api/v1/elasticubes/getElasticubes") =
      some "v1_elasticubes" ∧
    (getPlatformEndpointMappings (v2_available
        (fun ep => ep == "/api/v1/elasticubes/getElasticubes"))).lookup "datamodels" =
      some "/api/v1/elasticubes/getElasticubes" :=
  ⟨⟨by decide, by decide, by decide⟩,
   (claim_C7 (fun ep => ep == "/api/v1/elasticubes/getElasticubes")
     (by decide) (by decide)).1,
   (claim_C7 (fun ep => ep == "/api/v1/elasticubes/getElasticubes")
     (by decide) (by decide)).2.1 (by decide)⟩

/-- C7 counterexample: with `/api/v2/datamodels` probing 404 (absent),
`/api/v1/elasticubes/getElasticubes` probing 200 (present), but
`/api/v2/connections` also present, `v2_available` is true and the snapshot
mapping keeps `datamodels ↦ /api/v2/datamodels` — an endpoint that probed
absent — instead of the claimed `/api/v1/elasticubes/getElasticubes`. -/
theorem claim_C7_counterexample :
    (fun ep => ep == "/api/v2/connections" ||
        ep == "/api/v1/elasticubes/getElasticubes") "/api/v2/datamodels" = false ∧
    (fun ep => ep == "/api/v2/connections" ||
        ep == "/api/v1/elasticubes/getElasticubes")
      "/api/v1/elasticubes/getElasticubes" = true ∧
    (getPlatformEndpointMappings (v2_available (fun ep =>
        ep == "/api/v2/connections" ||
          ep == "/api/v1/elasticubes/getElasticubes"))).lookup "datamodels" =
      some "/api/v2/datamodels" ∧
    ("/api/v2/datamodels" : String) ≠ "/api/v1/elasticubes/getElasticubes" := by
  decide

/-! ### Metrics ring buffer (optimized_http_client.py lines 35-45, 127,
391-406) -/

/-- Dataclass `RequestMetrics` (lines 35-45); the `datetime` timestamp is
modelled as integer seconds. -/
structure RequestMetrics where
  endpoint : String
  method : String
  status_code : ℤ
  response_time_ms : ℚ
  request_size : Nat
  response_size : Nat
  timestamp : ℤ
  error_message : String
deriving DecidableEq

/-- `_record_metrics` (lines 391-406) appends the new record to
`self.request_metrics`, a `deque(maxlen=1000)` (line 127). -/
def recordMetrics (buf : List RequestMetrics) (m : RequestMetrics) :
    List RequestMetrics :=
  dequeAppend 1000 buf m

theorem foldl_dequeAppend {β : Type} (cap : Nat) (hcap : 1 ≤ cap)
    (ms : List β) :
    ms.foldl (dequeAppend cap) [] = ms.drop (ms.length - cap) := by
  induction ms using List.reverseRecOn with
  | nil => simp
  | append_singleton xs x ih =>
      rw [List.foldl_append, List.foldl_cons, List.foldl_nil, ih]
      rcases le_or_lt cap xs.length with h | h
      · have hlen : (xs.drop (xs.length - cap)).length = cap := by
          rw [List.length_drop]
          omega
        rw [dequeAppend, if_pos (le_of_eq hlen.symm), List.tail_drop]
        have hle : xs.length + 1 - cap ≤ xs.length := by omega
        rw [List.length_append, List.length_singleton,
          List.drop_append_of_le_length hle]
        have : xs.length - cap + 1 = xs.length + 1 - cap := by omega
        rw [this]
      · have h0 : xs.length - cap = 0 := by omega
        rw [h0, List.drop_zero, dequeAppend, if_neg (by omega)]
        have h1 : (xs ++ [x]).length - cap = 0 := by
          rw [List.length_append, List.length_singleton]
          omega
        rw [h1, List.drop_zero]

/-- C8: the metrics buffer never exceeds its fixed capacity 1000; after
more than 1000 insertions into the empty buffer it holds exactly the 1000
most recently inserted records, in insertion order; and each insertion into
a full buffer evicts the oldest entry (lines 127, 391-406). -/
theorem claim_C8 :
    (∀ ms : List RequestMetrics, (ms.foldl recordMetrics []).length ≤ 1000) ∧
    (∀ ms : List RequestMetrics, 1000 < ms.length →
      ms.foldl recordMetrics [] = ms.drop (ms.length - 1000) ∧
      (ms.foldl recordMetrics []).length = 1000) ∧
    (∀ (buf : List RequestMetrics) (m : RequestMetrics), buf.length = 1000 →
      recordMetrics buf m = buf.tail ++ [m]) := by
  have hrm : ∀ ms : List RequestMetrics,
      ms.foldl recordMetrics [] = ms.drop (ms.length - 1000) := fun ms =>
    foldl_dequeAppend 1000 (by omega) ms
  refine ⟨?_, ?_, ?_⟩
  · intro ms
    rw [hrm, List.length_drop]
    omega
  · intro ms hlen
    refine ⟨hrm ms, ?_⟩
    rw [hrm, List.length_drop]
    omega
  · intro buf m hbuf
    rw [recordMetrics, dequeAppend, if_pos (le_of_eq hbuf.symm)]

/-- A synthetic metric record, one per index. -/
def mkSyntheticMetric (i : Nat) : RequestMetrics :=
  { endpoint := "/api/v1/dashboards"
    method := "GET"
    status_code := 200
    response_time_ms := 0
    request_size := 0
    response_size := 0
    timestamp := (i : ℤ)
    error_message := "" }

theorem claim_C8_witness :
    (1000 < ((List.range 1001).map mkSyntheticMetric).length ∧
      ((List.range 1001).map mkSyntheticMetric).foldl recordMetrics [] =
        ((List.range 1001).map mkSyntheticMetric).drop
          (((List.range 1001).map mkSyntheticMetric).length - 1000) ∧
      (((List.range 1001).map mkSyntheticMetric).foldl
          recordMetrics []).length = 1000) ∧
    ((List.replicate 1000 (mkSyntheticMetric 0)).length = 1000 ∧
      recordMetrics (List.replicate 1000 (mkSyntheticMetric 0))
          (mkSyntheticMetric 1) =
        (List.replicate 1000 (mkSyntheticMetric 0)).tail ++ [mkSyntheticMetric 1]) :=
  ⟨⟨by rw [List.length_map, List.length_range]; omega,
    claim_C8.2.1 ((List.range 1001).map mkSyntheticMetric)
      (by rw [List.length_map, List.length_range]; omega)⟩,
   ⟨by rw [List.length_replicate],
    claim_C8.2.2 (List.replicate 1000 (mkSyntheticMetric 0))
      (mkSyntheticMetric 1) (by rw [List.length_replicate])⟩⟩

/-! ### Endpoint URL resolution (env_config.py lines 444-467) -/

/-- Python `str.rstrip('/')`. -/
def rstripSlash (s : String) : String :=
  String.mk ((s.data.reverse.dropWhile (fun c => c == '/')).reverse)

/-- Python `str.lstrip('/')`. -/
def lstripSlash (s : String) : String :=
  String.mk (s.data.dropWhile (fun c => c == '/'))

/-- Suffix handling of `get_endpoint_url` (lines 463-466):
`f"{endpoint.rstrip('/')}/{endpoint_suffix.lstrip('/')}"` when a suffix is
given. -/
def appendSuffix (endpoint endpoint_suffix : String) : String :=
  if endpoint_suffix ≠ "" then
    rstripSlash endpoint ++ "/" ++ lstripSlash endpoint_suffix
  else endpoint

/-- `get_endpoint_url` (lines 444-467): look the resource type up in the
snapshot's `platform_specific_endpoints`; on a missing key or a falsy value
(`if not endpoint`, the `dict.get` None and `""` both being falsy, merged
here by `getD ""`), fall back to `f"/api/{v2 or v1}/{resource_type}"`; then
append the suffix. -/
def getEndpointUrl (mappings : List (String × String)) (v2avail : Bool)
    (resource_type endpoint_suffix : String) : String :=
  let endpoint0 := (mappings.lookup resource_type).getD ""
  let endpoint :=
    if endpoint0 = "" then
      (if v2avail then "/api/v2/" else "/api/v1/") ++ resource_type
    else endpoint0
  appendSuffix endpoint endpoint_suffix

/-- Modelled from the spec: `resolve(resourceType, suffix)` "looks up
resourceType in the current CapabilitySnapshot's mapping; if absent, falls
back to a deterministic default pattern (dialect-default prefix +
resourceType); appends suffix" — stated for comparison against
`getEndpointUrl`. -/
def resolveSpec (mappings : List (String × String)) (v2avail : Bool)
    (resource_type endpoint_suffix : String) : String :=
  match mappings.lookup resource_type with
  | some e => appendSuffix e endpoint_suffix
  | none =>
      appendSuffix ((if v2avail then "/api/v2/" else "/api/v1/") ++ resource_type)
        endpoint_suffix

theorem lookup_mem_values : ∀ (l : List (String × String)) (k v : String),
    l.lookup k = some v → v ∈ l.map Prod.snd := by
  intro l
  induction l with
  | nil => intro k v h; simp [List.lookup] at h
  | cons p rest ih =>
      intro k v h
      rcases p with ⟨k0, v0⟩
      simp only [List.lookup] at h
      split at h
      · injection h with hv
        simp [hv]
      · simp only [List.map_cons, List.mem_cons]
        exact Or.inr (ih k v h)

theorem mappings_snd_ne (v2avail : Bool) :
    ∀ p ∈ getPlatformEndpointMappings v2avail, p.2 ≠ "" := by
  cases v2avail <;> decide

theorem appendSuffix_ne_empty (endpoint endpoint_suffix : String)
    (he : endpoint ≠ "") : appendSuffix endpoint endpoint_suffix ≠ "" := by
  rw [appendSuffix]
  split
  · intro hcontra
    have hd : (rstripSlash endpoint ++ "/" ++
        lstripSlash endpoint_suffix).data = [] := by rw [hcontra]
    simp at hd
  · exact he

/-- C9: `get_endpoint_url` is total — it never fails and always returns a
nonempty path — and on every snapshot mapping the code produces
(`_get_platform_endpoint_mappings`, whose values are all truthy) it agrees
with the spec's `resolve`: the mapping's entry with the suffix appended
when the resource type is mapped, otherwise the dialect-default prefix
(`/api/v2/` when v2 is available, else `/api/v1/`) plus the resource type,
with the suffix appended. -/
theorem claim_C9 (v2avail : Bool) (resource_type endpoint_suffix : String) :
    getEndpointUrl (getPlatformEndpointMappings v2avail) v2avail
        resource_type endpoint_suffix =
      resolveSpec (getPlatformEndpointMappings v2avail) v2avail
        resource_type endpoint_suffix ∧
    getEndpointUrl (getPlatformEndpointMappings v2avail) v2avail
        resource_type endpoint_suffix ≠ "" := by
  rcases hl : (getPlatformEndpointMappings v2avail).lookup resource_type with _ | e
  · constructor
    · simp [getEndpointUrl, resolveSpec, hl]
    · simp only [getEndpointUrl, hl, Option.getD_none, if_pos rfl, if_true]
      refine appendSuffix_ne_empty _ _ ?_
      intro h
      have hd : (((if v2avail then "/api/v2/" else "/api/v1/") ++
          resource_type : String)).data = [] := by rw [h]
      cases v2avail <;> simp at hd
  · have he : e ≠ "" := by
      have hmem := lookup_mem_values _ _ _ hl
      obtain ⟨p, hp, hpe⟩ := List.mem_map.mp hmem
      exact hpe ▸ mappings_snd_ne v2avail p hp
    constructor
    · simp [getEndpointUrl, resolveSpec, hl, he]
    · simp only [getEndpointUrl, hl, Option.getD_some, if_neg he]
      exact appendSuffix_ne_empty _ _ he
